import Mathlib

/-!
Verification of the napkin energetics calculator
(src/energy_flow_calculator.py) against its specification.

The energetics engine is a handful of closed-form arithmetic functions over
floats; we embed them as functions over the reals.  Strategy dispatch in the
source is on exact strings, and the Python function falls through (returning
the implicit None) for unrecognized strategies, so the embedding returns an
Option.  The numpy statistics return the float nan on empty input; nan has no
counterpart in the reals, so those embeddings return none exactly on empty
input and some of the arithmetic value otherwise.
-/

namespace EnergyFlow

noncomputable section

/-- Mixture weight between active and basal regimes
(source line 190: sig = 0.5). -/
def sig : ℝ := 0.5

/-- Aggregate activation energy of metabolic reactions
(source line 191: Ea = 0.69). -/
def Ea : ℝ := 0.69

/-- Boltzmann constant in eV/K (source line 192). -/
def kB : ℝ := 8.617333262145e-5

/-- Embedding of EnergyCalculator.metabolic_rate
(src/energy_flow_calculator.py lines 176-208).  The source dispatches on the
exact strings "endothermic" and "ectothermic"; any other string falls off the
if/elif chain and Python returns the implicit None, embedded here as none.
The tuple unpackings of the source are kept verbatim: the first tuple binds
Ib and bf, the second binds If and bb, and the returned expression pairs
If with exponent bf and Ib with exponent bb. -/
def metabolic_rate (mass : ℝ) (metabolic_type : String) (temperature : ℝ) :
    Option ℝ :=
  let mass_g : ℝ := mass * 1000
  if metabolic_type = "endothermic" then
    let Ib : ℝ := 4.19 * 10 ^ 10
    let bf : ℝ := 0.69
    let If : ℝ := 9.08 * 10 ^ 11
    let bb : ℝ := 0.7
    let Tk : ℝ := 310.0
    some ((sig * If * Real.exp (-(Ea / (kB * Tk)))) * mass_g ^ bf +
      ((1 - sig) * Ib * Real.exp (-(Ea / (kB * Tk)))) * mass_g ^ bb)
  else if metabolic_type = "ectothermic" then
    let Ib : ℝ := 4.19 * 10 ^ 10
    let bf : ℝ := 0.69
    let If : ℝ := 1.49 * 10 ^ 11
    let bb : ℝ := 0.88
    let Tk : ℝ := temperature + 274.15
    some ((sig * If * Real.exp (-(Ea / (kB * Tk)))) * mass_g ^ bf +
      ((1 - sig) * Ib * Real.exp (-(Ea / (kB * Tk)))) * mass_g ^ bb)
  else
    none

/-- Embedding of EnergyCalculator.length_to_mass
(src/energy_flow_calculator.py lines 236-259): allometric length (cm) to
mass (kg) conversion via a log-log regression. -/
def length_to_mass (length : ℝ) : ℝ :=
  let intercept : ℝ := -0.792
  let slope : ℝ := 2.181
  let log_length : ℝ := Real.logb 10 (length * 10)
  let log_mass : ℝ := intercept + slope * log_length
  (10 : ℝ) ^ log_mass * 1e-6

/-- Embedding of EnergyCalculator.calculate_group_energy
(src/energy_flow_calculator.py lines 210-234).  When metabolic_rate yields
None, the Python multiplication None * number raises a TypeError; the
embedding propagates none through Option.map. -/
def calculate_group_energy (name : String) (measure : ℝ) (number : ℤ)
    (metabolic_type : String) (measurement_type : String) (temperature : ℝ) :
    Option ℝ :=
  let mass : ℝ :=
    if measurement_type = "Length (cm)" then length_to_mass measure
    else measure
  (metabolic_rate mass metabolic_type temperature).map
    (fun r => r * (number : ℝ))

/-- One animal group as read off the input widgets
(src/energy_flow_calculator.py lines 141-149). -/
structure AnimalGroup where
  name : String
  measure : ℝ
  number : ℤ
  metabolic_type : String
  measurement_type : String

/-- The per-group computation of EnergyCalculator.calculate_energy
(src/energy_flow_calculator.py lines 159-167): the caller lowercases the
metabolic-type string before invoking calculate_group_energy. -/
def calculate_energy_group (g : AnimalGroup) (temperature : ℝ) : Option ℝ :=
  calculate_group_energy g.name g.measure g.number
    g.metabolic_type.toLower g.measurement_type temperature

/-- Embedding of numpy.mean as used in display_stats (source line 299).
On an empty list numpy returns the float nan (with a runtime warning, not an
exception); nan is embedded as none. -/
def np_mean (l : List ℝ) : Option ℝ :=
  if l.isEmpty then none else some (l.sum / l.length)

/-- Embedding of numpy.median as used in display_stats (source line 300):
sort, take the middle element for odd length, the midpoint of the two middle
elements for even length; nan (empty input) is embedded as none. -/
def np_median (l : List ℝ) : Option ℝ :=
  if l.isEmpty then none
  else
    let s := l.mergeSort (· ≤ ·)
    let n := l.length
    if n % 2 = 1 then some (s.getD (n / 2) 0)
    else some ((s.getD (n / 2 - 1) 0 + s.getD (n / 2) 0) / 2)

/-- Embedding of numpy.std as used in display_stats (source line 301):
population standard deviation (divide by N); nan (empty input) is embedded
as none. -/
def np_std (l : List ℝ) : Option ℝ :=
  if l.isEmpty then none
  else
    let m := l.sum / l.length
    some (Real.sqrt ((l.map (fun x => (x - m) ^ 2)).sum / l.length))

/-- The statistics block of EnergyCalculator.display_stats
(src/energy_flow_calculator.py lines 298-304): given the list of per-group
energies it computes mean, median and population standard deviation with
numpy and displays them; there is no emptiness guard and no exception. -/
def display_stats_summary (energies : List ℝ) :
    Option ℝ × Option ℝ × Option ℝ :=
  (np_mean energies, np_median energies, np_std energies)

/-- The Arrhenius temperature factor of the rate formula, as a function of
the body temperature in Kelvin. -/
def arrhenius (T : ℝ) : ℝ := Real.exp (-(Ea / (kB * T)))

/-- The metabolic-rate formula exactly as section 4.1 of the specification
states it, for comparison with the source embedding metabolic_rate: the
field coefficient is paired with the field exponent and the basal
coefficient with the basal exponent (Endothermic: 9.08e11 with 0.70 and
4.19e10 with 0.69; Ectothermic: 1.49e11 with 0.88 and 4.19e10 with 0.69).
The constants sig, Ea and kB are definitionally the literals 0.5, 0.69 and
8.617333262145e-5 the specification gives. -/
def spec_metabolic_rate (mass : ℝ) (metabolic_type : String)
    (temperature : ℝ) : Option ℝ :=
  let massGrams : ℝ := mass * 1000
  if metabolic_type = "endothermic" then
    some ((sig * (9.08 * 10 ^ 11) * Real.exp (-(Ea / (kB * 310.0)))) *
        massGrams ^ (0.7 : ℝ) +
      ((1 - sig) * (4.19 * 10 ^ 10) * Real.exp (-(Ea / (kB * 310.0)))) *
        massGrams ^ (0.69 : ℝ))
  else if metabolic_type = "ectothermic" then
    some ((sig * (1.49 * 10 ^ 11) *
          Real.exp (-(Ea / (kB * (temperature + 274.15))))) *
        massGrams ^ (0.88 : ℝ) +
      ((1 - sig) * (4.19 * 10 ^ 10) *
          Real.exp (-(Ea / (kB * (temperature + 274.15))))) *
        massGrams ^ (0.69 : ℝ))
  else none

end

/-- Unfolding of the endothermic branch of the source embedding. -/
lemma metabolic_rate_endo (m t : ℝ) :
    metabolic_rate m "endothermic" t =
      some ((sig * (9.08 * 10 ^ 11) * Real.exp (-(Ea / (kB * 310.0)))) *
          (m * 1000) ^ (0.69 : ℝ) +
        ((1 - sig) * (4.19 * 10 ^ 10) * Real.exp (-(Ea / (kB * 310.0)))) *
          (m * 1000) ^ (0.7 : ℝ)) := rfl

/-- Unfolding of the ectothermic branch of the source embedding. -/
lemma metabolic_rate_ecto (m t : ℝ) :
    metabolic_rate m "ectothermic" t =
      some ((sig * (1.49 * 10 ^ 11) *
            Real.exp (-(Ea / (kB * (t + 274.15))))) * (m * 1000) ^ (0.69 : ℝ) +
        ((1 - sig) * (4.19 * 10 ^ 10) *
            Real.exp (-(Ea / (kB * (t + 274.15))))) *
          (m * 1000) ^ (0.88 : ℝ)) := rfl

/-- C2: the claim says any strategy outside the two supported ones fails
with a typed UnsupportedStrategy error; evaluating the code at the failing
input shows the call instead falls off the if/elif chain and yields no value
at all (the implicit Python None, embedded as none): no typed error is
raised. -/
theorem C2_unsupported_strategy_yields_none :
    metabolic_rate 1 "hibernating" 25 = none := rfl

/-- C3: the claim says statistics over zero groups fail with an EmptyInput
error; evaluating the statistics block of display_stats on an empty energy
list shows it instead completes and produces the numpy nan placeholders
(embedded as none) for mean, median and standard deviation, which are then
displayed: no EmptyInput error is raised. -/
theorem C3_empty_stats_no_error :
    display_stats_summary [] = (none, none, none) := rfl

/-- C4: the claim says a non-positive individual count fails with an
InvalidMeasurement error; evaluating the code at count 0 (mass 1 kg,
endothermic, 25 degrees) shows it instead returns the number 0. -/
theorem C4_nonpositive_count_returns_number :
    calculate_group_energy "Mammals" 1 0 "endothermic" "Mass (kg)" 25 =
      some 0 := by
  simp [calculate_group_energy, metabolic_rate_endo]

/-- C5: for every positive mass the endothermic metabolic rate is the same
at any two ambient temperatures: the endothermic branch never reads the
temperature argument. -/
theorem C5_endothermic_temperature_independent (m t₁ t₂ : ℝ) (hm : 0 < m) :
    metabolic_rate m "endothermic" t₁ = metabolic_rate m "endothermic" t₂ :=
  (metabolic_rate_endo m t₁).trans (metabolic_rate_endo m t₂).symm

theorem C5_endothermic_temperature_independent_witness :
    (0 : ℝ) < 1 ∧
      metabolic_rate 1 "endothermic" 0 = metabolic_rate 1 "endothermic" 100 :=
  ⟨by norm_num,
    C5_endothermic_temperature_independent 1 0 100 (by norm_num)⟩

/-- C6: for every positive length in cm, length_to_mass computes
10 ^ (-0.792 + 2.181 * log10(length * 10)) * 1e-6, the Sohlstrom et al. 2018
log-log regression with cm to mm input conversion and mg to kg output
conversion. -/
theorem C6_length_to_mass_formula (l : ℝ) (hl : 0 < l) :
    length_to_mass l =
      (10 : ℝ) ^ (-0.792 + 2.181 * Real.logb 10 (l * 10)) * 1e-6 := rfl

theorem C6_length_to_mass_formula_witness :
    (0 : ℝ) < 1 ∧
      length_to_mass 1 =
        (10 : ℝ) ^ (-0.792 + 2.181 * Real.logb 10 (1 * 10)) * 1e-6 :=
  ⟨by norm_num, C6_length_to_mass_formula 1 (by norm_num)⟩

/-- C7: the ectothermic branch of metabolic_rate uses body temperature
t + 274.15 Kelvin, exactly this offset, inside the Arrhenius factor
exp(-Ea / (kB * T)) of both terms. -/
theorem C7_ectothermic_body_temperature_offset (m t : ℝ) :
    metabolic_rate m "ectothermic" t =
      some ((sig * (1.49 * 10 ^ 11) * arrhenius (t + 274.15)) *
          (m * 1000) ^ (0.69 : ℝ) +
        ((1 - sig) * (4.19 * 10 ^ 10) * arrhenius (t + 274.15)) *
          (m * 1000) ^ (0.88 : ℝ)) := rfl

/-- C9: calculate_group_energy applies the length-to-mass conversion exactly
when the measurement-kind string is "Length (cm)"; any other string is used
directly as a mass in kilograms, with no validation of the kind. -/
theorem C9_measurement_kind_dispatch (name : String) (measure : ℝ)
    (number : ℤ) (mt ms : String) (t : ℝ) :
    (ms = "Length (cm)" →
      calculate_group_energy name measure number mt ms t =
        (metabolic_rate (length_to_mass measure) mt t).map
          (fun r => r * (number : ℝ))) ∧
    (ms ≠ "Length (cm)" →
      calculate_group_energy name measure number mt ms t =
        (metabolic_rate measure mt t).map (fun r => r * (number : ℝ))) := by
  constructor <;> intro h <;> simp [calculate_group_energy, h]

theorem C9_measurement_kind_dispatch_witness :
    (("Length (cm)" : String) = "Length (cm)" ∧
      calculate_group_energy "Insects" 2 3 "ectothermic" "Length (cm)" 25 =
        (metabolic_rate (length_to_mass 2) "ectothermic" 25).map
          (fun r => r * ((3 : ℤ) : ℝ))) ∧
    (("Mass (kg)" : String) ≠ "Length (cm)" ∧
      calculate_group_energy "Frogs" 2 3 "ectothermic" "Mass (kg)" 25 =
        (metabolic_rate 2 "ectothermic" 25).map
          (fun r => r * ((3 : ℤ) : ℝ))) :=
  ⟨⟨rfl, (C9_measurement_kind_dispatch "Insects" 2 3 "ectothermic"
      "Length (cm)" 25).1 rfl⟩,
    ⟨by decide, (C9_measurement_kind_dispatch "Frogs" 2 3 "ectothermic"
      "Mass (kg)" 25).2 (by decide)⟩⟩

/-- C10: metabolic_rate dispatches only on the exact lowercase strings
"endothermic" and "ectothermic" and yields no value (none, the implicit
Python None) for any other string, including the spec-cased "Endothermic"
and "Ectothermic"; the calculate_energy caller lowercases the strategy
before invoking it; and for any unrecognized strategy calculate_group_energy
produces no number (Python raises a TypeError on None * count), so it is not
total over arbitrary strategy strings. -/
theorem C10_lowercase_dispatch_totality :
    (∀ (m t : ℝ) (s : String), s ≠ "endothermic" → s ≠ "ectothermic" →
      metabolic_rate m s t = none) ∧
    (∀ m t : ℝ, metabolic_rate m "Endothermic" t = none ∧
      metabolic_rate m "Ectothermic" t = none) ∧
    (∀ m t : ℝ, (metabolic_rate m "endothermic" t).isSome = true ∧
      (metabolic_rate m "ectothermic" t).isSome = true) ∧
    (∀ (g : AnimalGroup) (t : ℝ), calculate_energy_group g t =
      calculate_group_energy g.name g.measure g.number
        g.metabolic_type.toLower g.measurement_type t) ∧
    (∀ (name : String) (measure : ℝ) (number : ℤ) (s ms : String) (t : ℝ),
      s ≠ "endothermic" → s ≠ "ectothermic" →
      calculate_group_energy name measure number s ms t = none) := by
  refine ⟨?_, ?_, ?_, ?_, ?_⟩
  · intro m t s h1 h2; simp [metabolic_rate, h1, h2]
  · intro m t; exact ⟨rfl, rfl⟩
  · intro m t; exact ⟨rfl, rfl⟩
  · intro g t; rfl
  · intro name measure number s ms t h1 h2
    simp [calculate_group_energy, metabolic_rate, h1, h2]

theorem C10_lowercase_dispatch_totality_witness :
    ("Endothermic" : String) ≠ "endothermic" ∧
    ("Endothermic" : String) ≠ "ectothermic" ∧
    metabolic_rate 1 "Endothermic" 25 = none ∧
    calculate_group_energy "Mammals" 1 2 "Endothermic" "Mass (kg)" 25 =
      none :=
  ⟨by decide, by decide,
    (C10_lowercase_dispatch_totality.2.1 1 25).1,
    C10_lowercase_dispatch_totality.2.2.2.2 "Mammals" 1 2 "Endothermic"
      "Mass (kg)" 25 (by decide) (by decide)⟩

/-- C1 counterexample: at mass 1 kg, endothermic, 25 degrees, the rate the
code computes differs from the formula the claim states.  The source pairs
the field coefficient 9.08e11 with exponent 0.69 and the basal coefficient
4.19e10 with exponent 0.7 (the tuple unpackings bind bf from the first tuple
and bb from the second), while the claim pairs 9.08e11 with 0.70 and 4.19e10
with 0.69; the two sums differ whenever the mass in grams is not 1. -/
theorem C1_spec_formula_counterexample :
    metabolic_rate 1 "endothermic" 25 ≠ spec_metabolic_rate 1 "endothermic" 25 := by
  have hXY : ((1 : ℝ) * 1000) ^ (0.69 : ℝ) < ((1 : ℝ) * 1000) ^ (0.7 : ℝ) :=
    Real.rpow_lt_rpow_of_exponent_lt (by norm_num) (by norm_num)
  have hE : 0 < Real.exp (-(Ea / (kB * 310.0))) := Real.exp_pos _
  rw [metabolic_rate_endo, spec_metabolic_rate]
  rw [if_pos rfl]
  intro h
  rw [Option.some.injEq] at h
  set E := Real.exp (-(Ea / (kB * 310.0))) with hEdef
  set X := ((1 : ℝ) * 1000) ^ (0.69 : ℝ) with hXdef
  set Y := ((1 : ℝ) * 1000) ^ (0.7 : ℝ) with hYdef
  have key : 0 < E * Y - E * X := by nlinarith [mul_pos hE (sub_pos.mpr hXY)]
  rw [sig] at h
  nlinarith [key, h]

/-- C1 amended: for every mass massKg > 0, metabolicRate(massKg, strategy,
t) equals sigma * I_field * exp(-Ea/(kB*T)) * massGrams^E_f +
(1-sigma) * I_basal * exp(-Ea/(kB*T)) * massGrams^E_b with sigma = 0.5,
Ea = 0.69, kB = 8.617333262145e-5, massGrams = massKg * 1000, where the
exponent paired with each coefficient is the one the code binds: Endothermic
I_field = 9.08e11 with E_f = 0.69, I_basal = 4.19e10 with E_b = 0.70,
T = 310.0 K; Ectothermic I_field = 1.49e11 with E_f = 0.69, I_basal =
4.19e10 with E_b = 0.88, T = t + 274.15. -/
theorem C1_rate_formula_amended (m t : ℝ) (hm : 0 < m) :
    metabolic_rate m "endothermic" t =
      some ((sig * (9.08 * 10 ^ 11) * Real.exp (-(Ea / (kB * 310.0)))) *
          (m * 1000) ^ (0.69 : ℝ) +
        ((1 - sig) * (4.19 * 10 ^ 10) * Real.exp (-(Ea / (kB * 310.0)))) *
          (m * 1000) ^ (0.7 : ℝ)) ∧
    metabolic_rate m "ectothermic" t =
      some ((sig * (1.49 * 10 ^ 11) *
            Real.exp (-(Ea / (kB * (t + 274.15))))) * (m * 1000) ^ (0.69 : ℝ) +
        ((1 - sig) * (4.19 * 10 ^ 10) *
            Real.exp (-(Ea / (kB * (t + 274.15))))) *
          (m * 1000) ^ (0.88 : ℝ)) :=
  ⟨metabolic_rate_endo m t, metabolic_rate_ecto m t⟩

theorem C1_rate_formula_amended_witness :
    (0 : ℝ) < 1 ∧
      (metabolic_rate 1 "endothermic" 25 =
        some ((sig * (9.08 * 10 ^ 11) * Real.exp (-(Ea / (kB * 310.0)))) *
            ((1 : ℝ) * 1000) ^ (0.69 : ℝ) +
          ((1 - sig) * (4.19 * 10 ^ 10) * Real.exp (-(Ea / (kB * 310.0)))) *
            ((1 : ℝ) * 1000) ^ (0.7 : ℝ)) ∧
      metabolic_rate 1 "ectothermic" 25 =
        some ((sig * (1.49 * 10 ^ 11) *
              Real.exp (-(Ea / (kB * ((25 : ℝ) + 274.15))))) *
            ((1 : ℝ) * 1000) ^ (0.69 : ℝ) +
          ((1 - sig) * (4.19 * 10 ^ 10) *
              Real.exp (-(Ea / (kB * ((25 : ℝ) + 274.15))))) *
            ((1 : ℝ) * 1000) ^ (0.88 : ℝ))) :=
  ⟨by norm_num, C1_rate_formula_amended 1 25 (by norm_num)⟩

/-- C8: for each supported strategy and each fixed temperature, the
metabolic rate is strictly increasing in mass: positive coefficients times a
positive Arrhenius factor, applied to strictly increasing power terms with
positive exponents. -/
theorem C8_rate_strictly_increasing_in_mass (s : String) (t m₁ m₂ : ℝ)
    (hs : s = "endothermic" ∨ s = "ectothermic")
    (h₁ : 0 < m₁) (h₁₂ : m₁ < m₂) :
    ∃ r₁ r₂, metabolic_rate m₁ s t = some r₁ ∧
      metabolic_rate m₂ s t = some r₂ ∧ r₁ < r₂ := by
  have hx : (0 : ℝ) ≤ m₁ * 1000 := by nlinarith
  have hxy : m₁ * 1000 < m₂ * 1000 := by linarith
  have hsig : (0 : ℝ) < sig := by norm_num [sig]
  have hsig1 : (0 : ℝ) < 1 - sig := by norm_num [sig]
  rcases hs with hs | hs <;> subst hs
  · exact ⟨_, _, metabolic_rate_endo m₁ t, metabolic_rate_endo m₂ t,
      add_lt_add
        (mul_lt_mul_of_pos_left (Real.rpow_lt_rpow hx hxy (by norm_num))
          (mul_pos (mul_pos hsig (by norm_num)) (Real.exp_pos _)))
        (mul_lt_mul_of_pos_left (Real.rpow_lt_rpow hx hxy (by norm_num))
          (mul_pos (mul_pos hsig1 (by norm_num)) (Real.exp_pos _)))⟩
  · exact ⟨_, _, metabolic_rate_ecto m₁ t, metabolic_rate_ecto m₂ t,
      add_lt_add
        (mul_lt_mul_of_pos_left (Real.rpow_lt_rpow hx hxy (by norm_num))
          (mul_pos (mul_pos hsig (by norm_num)) (Real.exp_pos _)))
        (mul_lt_mul_of_pos_left (Real.rpow_lt_rpow hx hxy (by norm_num))
          (mul_pos (mul_pos hsig1 (by norm_num)) (Real.exp_pos _)))⟩

theorem C8_rate_strictly_increasing_in_mass_witness :
    (0 : ℝ) < 1 ∧ (1 : ℝ) < 2 ∧
      ∃ r₁ r₂, metabolic_rate 1 "endothermic" 25 = some r₁ ∧
        metabolic_rate 2 "endothermic" 25 = some r₂ ∧ r₁ < r₂ :=
  ⟨by norm_num, by norm_num,
    C8_rate_strictly_increasing_in_mass "endothermic" 25 1 2 (Or.inl rfl)
      (by norm_num) (by norm_num)⟩

end EnergyFlow
